import Mathlib

/-!
Verification of the Execution Console component of the online-compiler
repository (src/src/App.tsx), as a shallow embedding in Lean.

The component holds session state (source text, selected language, output
text, the pyodide runtime handle, the loading flag) and three operations:

* `handleRunCode`  : dispatches the current source text to one of two
  execution strategies (browser-native JavaScript via the Function
  constructor, or Python via the pyodide VM) and composes the output;
* `handleLanguageChange` : resets the editor to the selected language;
* `initPyodide`    : the one-shot asynchronous bootstrap of the VM.

External engines (the browser JavaScript engine invoked through
`new Function(code)()` and the pyodide VM invoked through `runPython`)
are modelled by their observable behavior on a given source text: the
sequence of intercepted logging calls, the captured stdout text, and the
returned value or thrown error.  `handleRunCode` is embedded as a function
producing the trace of state-changing effects it performs, in source
order; the final output text and the state of the global logging sink are
obtained by folding that trace.
-/

namespace OC

/-- The two supported languages of the component (type `Language` in App.tsx). -/
inductive Lang
| javascript
| python
deriving DecidableEq, Repr

/-- The empty output text the run handler clears to. -/
def emptyOutput : String := ""

/-- String constants appearing in App.tsx. -/
def jsPlaceholder : String := "// Start coding here..."

def pyPlaceholder : String := "# Start coding here..."

def waitingMessage : String := "Python runtime is not ready yet. Please wait..."

def errorLabel : String := "Error: "

def unknownErrorMessage : String := "An unknown error occurred"

def resultMarker : String := "\n=> "

def newlineSep : String := "\n"

def spaceSep : String := " "

/-- One argument of an intercepted `console.log` call, as classified by the
override installed in the JavaScript branch of `handleRunCode`:
an argument of type object carries its `JSON.stringify(arg, null, 2)`
rendering, any other argument carries its `String(arg)` rendering. -/
inductive JsArg
| obj (jsonText : String)
| prim (strText : String)
deriving DecidableEq, Repr

/-- The string form of one argument, as pushed by the `console.log` override. -/
def formatLogArg : JsArg → String
| JsArg.obj j => j
| JsArg.prim s => s

/-- One buffered log line: the call arguments rendered and joined with spaces
(the `args.map(...).join(" ")` in the override). -/
def formatLogLine (args : List JsArg) : String :=
  String.intercalate spaceSep (args.map formatLogArg)

/-- A value thrown by JavaScript execution, as discriminated by the outer
catch block: either an `Error` instance carrying a message, or a value of
any other shape. -/
inductive JsThrown
| errorInstance (message : String)
| nonError
deriving DecidableEq, Repr

instance {ε α : Type} [DecidableEq ε] [DecidableEq α] : DecidableEq (Except ε α) := fun x y =>
  match x, y with
  | Except.ok a, Except.ok b =>
      if h : a = b then Decidable.isTrue (by rw [h]) else Decidable.isFalse (by simp [h])
  | Except.ok _, Except.error _ => Decidable.isFalse (by simp)
  | Except.error _, Except.ok _ => Decidable.isFalse (by simp)
  | Except.error e, Except.error f =>
      if h : e = f then Decidable.isTrue (by rw [h]) else Decidable.isFalse (by simp [h])

/-- Observable behavior of `new Function(code)()` on the current source text:
the `console.log` calls it makes, in order (each a list of arguments), and
either the returned value or a thrown value.  A returned value is `none`
for `undefined` and otherwise `some` of its string coercion, which is all
the composition step uses (`result !== undefined`, `"\n=> " + result`). -/
structure JsBehavior where
  logs : List (List JsArg)
  result : Except JsThrown (Option String)
deriving DecidableEq, Repr

/-- Observable behavior of running the current source text in the pyodide VM:
either the final value (`none` for `undefined`, i.e. a Python program whose
last statement has no value, else `some` of its string coercion) or a
thrown error carrying a message, together with the text accumulated in the
redirected stdout buffer at the time `sys.stdout.getvalue()` is read. -/
structure PyBehavior where
  result : Except String (Option String)
  stdout : String
deriving DecidableEq, Repr

/-- The fixed `runPython` invocations made by the Python branch of
`handleRunCode`, in addition to running the user code itself. -/
inductive PyCall
| redirectStdout
| runUserCode
| getStdout
| restoreStdout
deriving DecidableEq, Repr

/-- A state-changing effect performed by `handleRunCode`, in source order:
a `setOutput` call, installing the buffering `console.log` override,
restoring the original `console.log`, or a `pyodide.runPython` call. -/
inductive Effect
| setOutput (s : String)
| installLogOverride
| restoreLog
| pyCall (c : PyCall)
deriving DecidableEq, Repr

/-- Session state of the component (the `useState` hooks of App.tsx).
The pyodide handle is tracked by presence: `pyodide = true` iff the handle
is non-null. -/
structure AppState where
  code : String
  language : Lang
  isDarkMode : Bool
  output : String
  pyodide : Bool
  isLoading : Bool
deriving DecidableEq, Repr

/-- Output composition of the JavaScript branch:
`logs.join("\n") + (result !== undefined ? "\n=> " + result : "")`. -/
def jsComposeOutput (logs : List (List JsArg)) (result : Option String) : String :=
  String.intercalate newlineSep (logs.map formatLogLine) ++
    (match result with
     | some v => resultMarker ++ v
     | none => "")

/-- Output of the outer catch block:
`Error: ` plus the message for an `Error` instance, the generic fallback
otherwise. -/
def jsErrorOutput : JsThrown → String
| JsThrown.errorInstance m => errorLabel ++ m
| JsThrown.nonError => unknownErrorMessage

/-- ASCII whitespace, the fragment of the whitespace class trimmed by the
JavaScript `String.prototype.trim` relevant here. -/
def isJsWhitespace (c : Char) : Bool :=
  c == ' ' || c == '\n' || c == '\t' || c == '\r' || c == '\x0b' || c == '\x0c'

/-- Model of the JavaScript `String.prototype.trim` applied to the composed
Python output: drop leading and trailing whitespace. -/
def jsTrim (s : String) : String :=
  String.mk (((s.data.dropWhile isJsWhitespace).reverse.dropWhile isJsWhitespace).reverse)

/-- Output composition of the Python branch:
`(stdout + (result !== undefined ? "\n=> " + result : "")).trim()`. -/
def pyComposeOutput (stdout : String) (result : Option String) : String :=
  jsTrim (stdout ++
    (match result with
     | some v => resultMarker ++ v
     | none => ""))

/-- Effect trace of the JavaScript branch of `handleRunCode`: install the
`console.log` override, execute; on normal return restore `console.log`
and set the composed output; on a throw, control transfers to the outer
catch block, which sets the error output without restoring `console.log`. -/
def jsBranch (js : JsBehavior) : List Effect :=
  Effect.installLogOverride ::
    (match js.result with
     | Except.ok ret => [Effect.restoreLog, Effect.setOutput (jsComposeOutput js.logs ret)]
     | Except.error e => [Effect.setOutput (jsErrorOutput e)])

/-- Effect trace of the Python branch of `handleRunCode` when the runtime
handle is present: redirect stdout into a buffer, run the user code; on
success read the buffer, restore stdout, and set the composed output; on a
throw the inner catch sets the error output and the read and restore steps
are skipped. -/
def pyBranch (py : PyBehavior) : List Effect :=
  Effect.pyCall PyCall.redirectStdout :: Effect.pyCall PyCall.runUserCode ::
    (match py.result with
     | Except.ok ret =>
        [Effect.pyCall PyCall.getStdout, Effect.pyCall PyCall.restoreStdout,
         Effect.setOutput (pyComposeOutput py.stdout ret)]
     | Except.error m => [Effect.setOutput (errorLabel ++ m)])

/-- The run handler of App.tsx, as the trace of state-changing effects it
performs on a given session state, with the behavior of the two external
engines on the current source text given as `js` and `py`.  It first clears
the output, then dispatches on the selected language; the Python branch
first checks runtime readiness and bails out with the waiting message. -/
def handleRunCode (st : AppState) (js : JsBehavior) (py : PyBehavior) : List Effect :=
  Effect.setOutput emptyOutput ::
    (match st.language with
     | Lang.javascript => jsBranch js
     | Lang.python =>
        if st.pyodide then pyBranch py
        else [Effect.setOutput waitingMessage])

/-- State of the global `console.log` sink: the original function, or the
buffering override installed by the JavaScript branch. -/
inductive Sink
| original
| buffered
deriving DecidableEq, Repr

/-- The part of the world an effect trace acts on: the output text and the
global logging sink. -/
structure RunView where
  output : String
  sink : Sink
deriving DecidableEq, Repr

/-- Action of one effect on the observed view. -/
def applyEffect (v : RunView) : Effect → RunView
| Effect.setOutput s => RunView.mk s v.sink
| Effect.installLogOverride => RunView.mk v.output Sink.buffered
| Effect.restoreLog => RunView.mk v.output Sink.original
| Effect.pyCall _ => v

/-- Fold an effect trace over an initial view. -/
def runView (v : RunView) (tr : List Effect) : RunView :=
  tr.foldl applyEffect v

/-- Output text after an invocation of `handleRunCode`. -/
def finalOutput (st : AppState) (js : JsBehavior) (py : PyBehavior) : String :=
  (runView (RunView.mk st.output Sink.original) (handleRunCode st js py)).output

/-- State of the `console.log` sink after an invocation of `handleRunCode`
(the sink holds the original function before the invocation). -/
def finalSink (st : AppState) (js : JsBehavior) (py : PyBehavior) : Sink :=
  (runView (RunView.mk st.output Sink.original) (handleRunCode st js py)).sink

/-- The language switch handler of App.tsx: set the language, reset the
source text to the language-appropriate placeholder comment, clear the
output; the remaining fields are untouched. -/
def handleLanguageChange (st : AppState) (newLanguage : Lang) : AppState :=
  AppState.mk
    (if newLanguage = Lang.python then pyPlaceholder else jsPlaceholder)
    newLanguage
    st.isDarkMode
    emptyOutput
    st.pyodide
    st.isLoading

/-- A statement of the straightline fragment of JavaScript sufficient for the
concrete scenarios: a `console.log` call, an expression statement with the
given value (none for undefined), a return statement, or a throw. -/
inductive JsStmt
| logCall (args : List JsArg)
| exprStmt (value : Option String)
| returnStmt (value : Option String)
| throwStmt (e : JsThrown)
deriving DecidableEq, Repr

/-- ECMAScript function-call semantics of `new Function(code)()` for the
straightline fragment: statements run in order accumulating log calls; an
expression statement's value is discarded; a return statement ends the call
with its value; if the body completes normally the call returns
`undefined` (the completion value of a trailing expression statement is
not returned -- the Function constructor wraps the source text as a
function body, unlike a REPL or `eval`). -/
def runFunctionBody : List JsStmt → List (List JsArg) → JsBehavior
| [], logs => JsBehavior.mk logs (Except.ok none)
| JsStmt.logCall args :: rest, logs => runFunctionBody rest (logs ++ [args])
| JsStmt.exprStmt _ :: rest, logs => runFunctionBody rest logs
| JsStmt.returnStmt v :: _, logs => JsBehavior.mk logs (Except.ok v)
| JsStmt.throwStmt e :: _, logs => JsBehavior.mk logs (Except.error e)

/-- Behavior of `new Function(code)()` on a program of the fragment. -/
def newFunctionBehavior (body : List JsStmt) : JsBehavior :=
  runFunctionBody body []

/-- Bootstrap flags: presence of the pyodide handle and the loading flag. -/
structure BootFlags where
  pyodidePresent : Bool
  isLoading : Bool
deriving DecidableEq, Repr

/-- A state update performed by `initPyodide`. -/
inductive BootEffect
| setIsLoading (b : Bool)
| setPyodide
deriving DecidableEq, Repr

/-- The two ways the awaited `loadPyodide` call can end. -/
inductive BootOutcome
| success
| failure
deriving DecidableEq, Repr

/-- Update sequence of `initPyodide` (App.tsx lines 15-30): set the loading
flag, await `loadPyodide`; on success store the handle; in either case the
finally block clears the loading flag.  On success the handle is stored
before the finally block runs. -/
def initPyodideTrace : BootOutcome → List BootEffect
| BootOutcome.success =>
    [BootEffect.setIsLoading true, BootEffect.setPyodide, BootEffect.setIsLoading false]
| BootOutcome.failure =>
    [BootEffect.setIsLoading true, BootEffect.setIsLoading false]

/-- Action of one bootstrap update on the flags. -/
def applyBootEffect (f : BootFlags) : BootEffect → BootFlags
| BootEffect.setIsLoading b => BootFlags.mk f.pyodidePresent b
| BootEffect.setPyodide => BootFlags.mk true f.isLoading

/-- Flags at mount time: no handle, not loading. -/
def initialFlags : BootFlags := BootFlags.mk false false

/-- All flag states reached during the bootstrap, the initial state included. -/
def bootStates (o : BootOutcome) : List BootFlags :=
  (initPyodideTrace o).scanl applyBootEffect initialFlags

/-- Flags after the bootstrap has finished. -/
def finalBootFlags (o : BootOutcome) : BootFlags :=
  (initPyodideTrace o).foldl applyBootEffect initialFlags

/-! Concrete session states and engine behaviors used to instantiate the
theorems below. -/

/-- Text of the log argument in scenario 1. -/
def hiText : String := "hi"

/-- String form of the trailing expression value in scenario 1. -/
def text42 : String := "42"

/-- The single argument of the `console.log` call in scenario 1. -/
def hiArg : JsArg := JsArg.prim hiText

/-- Value of the trailing expression statement in scenario 1. -/
def val42 : Option String := some text42

/-- The program of scenario 1, `console.log("hi"); 42`, in the fragment. -/
def scenarioOneBody : List JsStmt := [JsStmt.logCall [hiArg], JsStmt.exprStmt val42]

/-- The scenario 1 program with an explicit return, `console.log("hi"); return 42`. -/
def scenarioOneReturnBody : List JsStmt := [JsStmt.logCall [hiArg], JsStmt.returnStmt val42]

/-- A session state with the native language selected. -/
def demoJsState : AppState :=
  AppState.mk jsPlaceholder Lang.javascript false emptyOutput false false

/-- A session state with the embedded-VM language selected and the runtime ready. -/
def demoPyReadyState : AppState :=
  AppState.mk pyPlaceholder Lang.python false emptyOutput true false

/-- A session state with the embedded-VM language selected before the runtime
handle is available. -/
def demoPyNotReadyState : AppState :=
  AppState.mk pyPlaceholder Lang.python false emptyOutput false false

/-- A JavaScript execution that does nothing and returns undefined. -/
def idleJs : JsBehavior := JsBehavior.mk [] (Except.ok none)

/-- A Python execution that prints nothing and has no final value. -/
def idlePy : PyBehavior := PyBehavior.mk (Except.ok none) emptyOutput

/-- String form of the returned value in the native success demo. -/
def sevenText : String := "7"

/-- A JavaScript execution logging one line and returning a defined value. -/
def demoJsOk : JsBehavior := JsBehavior.mk [[hiArg]] (Except.ok (some sevenText))

/-- Error message of scenario 2, `throw new Error("bad")`. -/
def badMsg : String := "bad"

/-- A JavaScript execution that throws an `Error` instance. -/
def demoJsError : JsBehavior := JsBehavior.mk [] (Except.error (JsThrown.errorInstance badMsg))

/-- Captured stdout of the Python program `print("x")`. -/
def xLine : String := "x\n"

/-- Behavior of the Python program of scenario 3, `print("x")`: it writes one
line to stdout and the value of its last statement is absent (Python `None`,
converted to `undefined` by the VM bridge). -/
def pyPrintX : PyBehavior := PyBehavior.mk (Except.ok none) xLine

/-- Error message of the failing Python demo. -/
def boomMsg : String := "boom"

/-- A Python execution that throws after writing to the redirected stdout. -/
def demoPyError : PyBehavior := PyBehavior.mk (Except.error boomMsg) xLine

/-- The intermediate bootstrap state in which the handle has been stored and
the loading flag has not yet been cleared. -/
def midBootFlags : BootFlags := BootFlags.mk true true

/-- C1: for every native-language execution that terminates without throwing,
the run handler sets the output to the captured log lines joined by newline,
followed by a trailing marker and the return value's string form exactly
when the returned value is not undefined. -/
theorem js_run_success_output (st : AppState) (js : JsBehavior) (py : PyBehavior)
    (hl : st.language = Lang.javascript) (ret : Option String)
    (hr : js.result = Except.ok ret) :
    finalOutput st js py =
      String.intercalate newlineSep (js.logs.map formatLogLine) ++
        (match ret with
         | some v => resultMarker ++ v
         | none => emptyOutput) := by
  cases ret <;>
    simp [finalOutput, handleRunCode, hl, jsBranch, hr, runView, applyEffect, jsComposeOutput,
      emptyOutput]

/-- Witness for C1 at a concrete run: one log line and returned value 7. -/
theorem js_run_success_output_witness :
    finalOutput demoJsState demoJsOk idlePy = "hi\n=> 7" :=
  (js_run_success_output demoJsState demoJsOk idlePy rfl (some sevenText) rfl).trans (by decide)

/-- C2: for every embedded-VM-language run with the runtime present that
succeeds, the output is the trimmed concatenation of the captured stdout
buffer with, when a final value was produced, a newline, the marker, and
that value's string form. -/
theorem py_run_success_output (st : AppState) (js : JsBehavior) (py : PyBehavior)
    (hl : st.language = Lang.python) (hp : st.pyodide = true) (ret : Option String)
    (hr : py.result = Except.ok ret) :
    finalOutput st js py =
      jsTrim (py.stdout ++
        (match ret with
         | some v => resultMarker ++ v
         | none => emptyOutput)) := by
  cases ret <;>
    simp [finalOutput, handleRunCode, hl, hp, pyBranch, hr, runView, applyEffect, pyComposeOutput,
      emptyOutput]

/-- Witness for C2 at the scenario 3 run: stdout x with trailing newline and
no final value yields output x. -/
theorem py_run_success_output_witness :
    finalOutput demoPyReadyState idleJs pyPrintX = "x" :=
  (py_run_success_output demoPyReadyState idleJs pyPrintX rfl rfl none rfl).trans (by decide)

/-- C3: when the embedded-VM language is selected and the runtime handle is
absent, the run handler performs exactly the output clear and the waiting
message write: the output becomes the literal waiting message and no VM
call occurs. -/
theorem py_run_not_ready (st : AppState) (js : JsBehavior) (py : PyBehavior)
    (hl : st.language = Lang.python) (hp : st.pyodide = false) :
    handleRunCode st js py = [Effect.setOutput emptyOutput, Effect.setOutput waitingMessage] ∧
    finalOutput st js py = waitingMessage ∧
    ∀ c : PyCall, Effect.pyCall c ∉ handleRunCode st js py := by
  have htr : handleRunCode st js py =
      [Effect.setOutput emptyOutput, Effect.setOutput waitingMessage] := by
    simp [handleRunCode, hl, hp]
  refine ⟨htr, ?_, ?_⟩
  · simp [finalOutput, htr, runView, applyEffect]
  · intro c
    rw [htr]
    simp

/-- Witness for C3 at a concrete not-ready state. -/
theorem py_run_not_ready_witness :
    finalOutput demoPyNotReadyState idleJs idlePy = waitingMessage ∧
    Effect.pyCall PyCall.runUserCode ∉ handleRunCode demoPyNotReadyState idleJs idlePy :=
  And.intro
    (py_run_not_ready demoPyNotReadyState idleJs idlePy rfl rfl).2.1
    ((py_run_not_ready demoPyNotReadyState idleJs idlePy rfl rfl).2.2 PyCall.runUserCode)

/-- C4 counterexample: for the native source console.log("hi"); 42 the code
produces output hi, not hi newline marker 42 -- the Function constructor
wraps the source as a function body, so the call returns undefined and no
return-value suffix is appended. -/
theorem scenario_one_counterexample :
    finalOutput demoJsState (newFunctionBehavior scenarioOneBody) idlePy = "hi" ∧
    finalOutput demoJsState (newFunctionBehavior scenarioOneBody) idlePy ≠ "hi\n=> 42" := by
  decide

/-- C4 amended: the scenario 1 source yields output hi; with an explicit
return statement, console.log("hi"); return 42, the output is the claimed
hi newline marker 42. -/
theorem scenario_one_amended :
    finalOutput demoJsState (newFunctionBehavior scenarioOneBody) idlePy = "hi" ∧
    finalOutput demoJsState (newFunctionBehavior scenarioOneReturnBody) idlePy = "hi\n=> 42" := by
  decide

/-- C5: every invocation of the run handler performs the output clear as its
first state change, whatever the language, readiness, or execution outcome. -/
theorem run_clears_output_first (st : AppState) (js : JsBehavior) (py : PyBehavior) :
    (handleRunCode st js py).head? = some (Effect.setOutput emptyOutput) :=
  rfl

/-- C6: execution errors are contained and rendered: a thrown Error instance
in the native branch yields the error label plus its message, a thrown
value of any other shape yields the generic fallback, and an error in the
embedded-VM branch yields the error label plus its message.  The handler
is a total function into effect traces, so no error propagates out. -/
theorem run_errors_contained (st : AppState) (js : JsBehavior) (py : PyBehavior) :
    (∀ e : JsThrown, st.language = Lang.javascript → js.result = Except.error e →
        finalOutput st js py = jsErrorOutput e) ∧
    (∀ m : String, jsErrorOutput (JsThrown.errorInstance m) = errorLabel ++ m) ∧
    jsErrorOutput JsThrown.nonError = unknownErrorMessage ∧
    (∀ m : String, st.language = Lang.python → st.pyodide = true →
        py.result = Except.error m → finalOutput st js py = errorLabel ++ m) := by
  refine ⟨?_, fun m => rfl, rfl, ?_⟩
  · intro e hl hr
    simp [finalOutput, handleRunCode, hl, jsBranch, hr, runView, applyEffect]
  · intro m hl hp hr
    simp [finalOutput, handleRunCode, hl, hp, pyBranch, hr, runView, applyEffect]

/-- Witness for C6 at scenario 2: a native run throwing Error with message
bad yields output Error: bad. -/
theorem run_errors_contained_witness :
    finalOutput demoJsState demoJsError idlePy = "Error: bad" :=
  ((run_errors_contained demoJsState demoJsError idlePy).1
      (JsThrown.errorInstance badMsg) rfl rfl).trans (by decide)

/-- C7: when an embedded-VM run with the runtime present throws, the output
is the error label plus the message and the stdout-restore call is absent
from the trace, leaving the stream redirected to the buffer. -/
theorem py_error_skips_restore (st : AppState) (js : JsBehavior) (py : PyBehavior)
    (hl : st.language = Lang.python) (hp : st.pyodide = true) (m : String)
    (hr : py.result = Except.error m) :
    finalOutput st js py = errorLabel ++ m ∧
    Effect.pyCall PyCall.restoreStdout ∉ handleRunCode st js py := by
  have htr : handleRunCode st js py =
      [Effect.setOutput emptyOutput, Effect.pyCall PyCall.redirectStdout,
       Effect.pyCall PyCall.runUserCode, Effect.setOutput (errorLabel ++ m)] := by
    simp [handleRunCode, hl, hp, pyBranch, hr]
  constructor
  · simp [finalOutput, htr, runView, applyEffect]
  · rw [htr]
    simp

/-- Witness for C7 at a concrete failing Python run. -/
theorem py_error_skips_restore_witness :
    finalOutput demoPyReadyState idleJs demoPyError = errorLabel ++ boomMsg ∧
    Effect.pyCall PyCall.restoreStdout ∉ handleRunCode demoPyReadyState idleJs demoPyError :=
  py_error_skips_restore demoPyReadyState idleJs demoPyError rfl rfl boomMsg rfl

/-- C8: the language switch handler resets the source text to the selected
language's placeholder comment, clears the output, records the selected
language, and leaves the runtime handle and the loading flag unchanged. -/
theorem language_change_resets (st : AppState) (l : Lang) :
    (handleLanguageChange st l).code =
        (if l = Lang.python then pyPlaceholder else jsPlaceholder) ∧
    (handleLanguageChange st l).output = emptyOutput ∧
    (handleLanguageChange st l).language = l ∧
    (handleLanguageChange st l).pyodide = st.pyodide ∧
    (handleLanguageChange st l).isLoading = st.isLoading :=
  ⟨rfl, rfl, rfl, rfl, rfl⟩

/-- C9 counterexample: the bootstrap success path reaches a state in which
the handle is present and the loading flag is still true -- the handle is
stored before the finally block clears the flag. -/
theorem boot_flags_counterexample :
    midBootFlags ∈ bootStates BootOutcome.success ∧
    midBootFlags.isLoading = true ∧ midBootFlags.pyodidePresent = true := by
  decide

/-- C9 amended: the loading flag and the presence of the runtime handle are
never simultaneously true except at the single intermediate state of the
bootstrap success path in which the handle has just been stored and the
finally block has not yet cleared the flag; in particular they are not
both true initially or once the bootstrap has finished. -/
theorem flags_not_both_true_outside_midboot :
    (∀ o : BootOutcome, ∀ f ∈ bootStates o, f.isLoading = true → f.pyodidePresent = true →
        o = BootOutcome.success ∧ f = midBootFlags) ∧
    (∀ o : BootOutcome,
        ¬((finalBootFlags o).isLoading = true ∧ (finalBootFlags o).pyodidePresent = true)) ∧
    ¬(initialFlags.isLoading = true ∧ initialFlags.pyodidePresent = true) := by
  refine ⟨?_, ?_, ?_⟩
  · intro o
    cases o <;> decide
  · intro o
    cases o <;> decide
  · decide

/-- Witness for the amended C9 at the one state with both flags set. -/
theorem flags_not_both_true_outside_midboot_witness :
    BootOutcome.success = BootOutcome.success ∧ midBootFlags = midBootFlags :=
  flags_not_both_true_outside_midboot.1 BootOutcome.success midBootFlags (by decide) rfl rfl

/-- C10: when a native-language execution throws, the restore of the original
logging sink is skipped: the buffering override installed before execution
is still the global sink after the handler returns. -/
theorem js_error_leaves_override (st : AppState) (js : JsBehavior) (py : PyBehavior)
    (hl : st.language = Lang.javascript) (e : JsThrown) (hr : js.result = Except.error e) :
    finalSink st js py = Sink.buffered ∧
    Effect.restoreLog ∉ handleRunCode st js py := by
  have htr : handleRunCode st js py =
      [Effect.setOutput emptyOutput, Effect.installLogOverride,
       Effect.setOutput (jsErrorOutput e)] := by
    simp [handleRunCode, hl, jsBranch, hr]
  constructor
  · simp [finalSink, htr, runView, applyEffect]
  · rw [htr]
    simp

/-- Witness for C10 at a concrete throwing native run. -/
theorem js_error_leaves_override_witness :
    finalSink demoJsState demoJsError idlePy = Sink.buffered ∧
    Effect.restoreLog ∉ handleRunCode demoJsState demoJsError idlePy :=
  js_error_leaves_override demoJsState demoJsError idlePy rfl
    (JsThrown.errorInstance badMsg) rfl

end OC


